import Mathlib

/-!
# A shallow embedding of the apnsd push-notification relay daemon

This file embeds the data model and the operations of `apnsd.py` (a
mobile push-notification relay: a persistent queue feeding push agents
that frame notifications for an Apple-style binary gateway) and proves
properties of that embedding.

Conventions of the embedding:
* Python byte strings are `List Nat` with every element `< 256`;
* Python text strings are `List Char`;
* machine integers are `Nat` (or `Int` for wall-clock arithmetic), with
  explicit bounds where the source packs fixed-width fields;
* wall-clock times (`now()`, `time.time()`) are explicit parameters;
* fallible operations return `Option` or `Except`.
-/

namespace Apnsd

/-- `DEVTOKLEN` from the source: device tokens are 32 bytes. -/
def DEVTOKLEN : Nat := 32

/-! ## Big-endian integer fields (`struct.pack`/`struct.unpack` with `>`) -/

/-- The two bytes of a big-endian `u16` field (`struct` format `H`). -/
def u16be (n : Nat) : List Nat := [n / 256 % 256, n % 256]

/-- The four bytes of a big-endian `u32` field (`struct` format `I`). -/
def u32be (n : Nat) : List Nat :=
  [n / 16777216 % 256, n / 65536 % 256, n / 256 % 256, n % 256]

/-- Reassemble a big-endian `u16` from its two bytes. -/
def readBE2 (a b : Nat) : Nat := a * 256 + b

/-- Reassemble a big-endian `u32` from its four bytes. -/
def readBE4 (a b c d : Nat) : Nat := ((a * 256 + b) * 256 + c) * 256 + d

/-! ## Hexadecimal encoding

`DeviceTokenFormater` renders a byte as `"%02x"` (lowercase); the
Listener's hex branch reads two characters at a time with `int(c, 16)`,
which accepts both cases.
-/

/-- Lowercase hex digit for a value `< 16` (the `%x` format). -/
def hexDigitChar (n : Nat) : Char :=
  if n < 10 then Char.ofNat (48 + n) else Char.ofNat (97 + (n - 10))

/-- `"%02x" % b`: two lowercase hex characters for one byte. -/
def byteToHex (b : Nat) : List Char := [hexDigitChar (b / 16), hexDigitChar (b % 16)]

/-- `''.join("%02x" % ord(c) for c in devtok)`: the hex rendering of a
byte string (lowercase), as produced by `DeviceTokenFormater` in `hex`
mode. -/
def hexEncode : List Nat → List Char
  | [] => []
  | b :: rest => byteToHex b ++ hexEncode rest

/-- The value of one hexadecimal character, upper or lower case
(the digits `int(c, 16)` accepts). -/
def hexVal (c : Char) : Option Nat :=
  if 48 ≤ c.toNat ∧ c.toNat ≤ 57 then some (c.toNat - 48)
  else if 97 ≤ c.toNat ∧ c.toNat ≤ 102 then some (c.toNat - 97 + 10)
  else if 65 ≤ c.toNat ∧ c.toNat ≤ 70 then some (c.toNat - 65 + 10)
  else none

/-- The Listener's hex branch: `for i in range(0, 64, 2): devtok +=
struct.pack('B', int(dt[i:i+2], 16))` — consume two characters at a time,
each pair one byte.  `none` models the `ValueError` `int` raises on a
non-hex character. -/
def decodeHexPairs : List Char → Option (List Nat)
  | [] => some []
  | [_] => none
  | c0 :: c1 :: rest => do
      let v0 ← hexVal c0
      let v1 ← hexVal c1
      let bs ← decodeHexPairs rest
      pure ((v0 * 16 + v1) :: bs)

/-! ## Standard base64 (`base64.standard_b64encode` / `standard_b64decode`)

Modelled canonically: the encoder emits the standard alphabet with `=`
padding; the decoder accepts alphabet characters in groups of four with
canonical final padding and fails (the `TypeError` of
`standard_b64decode`) otherwise.
-/

/-- The standard base64 alphabet character for a sextet `< 64`. -/
def b64Char (s : Nat) : Char :=
  if s < 26 then Char.ofNat (65 + s)
  else if s < 52 then Char.ofNat (97 + (s - 26))
  else if s < 62 then Char.ofNat (48 + (s - 52))
  else if s = 62 then Char.ofNat 43
  else Char.ofNat 47

/-- The sextet value of a standard base64 alphabet character. -/
def b64Val (c : Char) : Option Nat :=
  if 65 ≤ c.toNat ∧ c.toNat ≤ 90 then some (c.toNat - 65)
  else if 97 ≤ c.toNat ∧ c.toNat ≤ 122 then some (c.toNat - 97 + 26)
  else if 48 ≤ c.toNat ∧ c.toNat ≤ 57 then some (c.toNat - 48 + 52)
  else if c.toNat = 43 then some 62
  else if c.toNat = 47 then some 63
  else none

/-- The padding character `=`. -/
def b64Pad : Char := Char.ofNat 61

/-- `base64.standard_b64encode`: three bytes become four alphabet
characters; a tail of one or two bytes is padded with `=`. -/
def b64encode : List Nat → List Char
  | [] => []
  | [b0] =>
      [b64Char (b0 / 4), b64Char (b0 % 4 * 16), b64Pad, b64Pad]
  | [b0, b1] =>
      [b64Char (b0 / 4), b64Char (b0 % 4 * 16 + b1 / 16), b64Char (b1 % 16 * 4), b64Pad]
  | b0 :: b1 :: b2 :: rest =>
      b64Char (b0 / 4) :: b64Char (b0 % 4 * 16 + b1 / 16) ::
      b64Char (b1 % 16 * 4 + b2 / 64) :: b64Char (b2 % 64) :: b64encode rest

/-- `base64.standard_b64decode`: groups of four characters; the final
group may carry one or two `=` padding characters.  `.error ()` models
the `TypeError` raised on malformed input. -/
def b64decode : List Char → Except Unit (List Nat)
  | [] => .ok []
  | c0 :: c1 :: c2 :: c3 :: rest => do
      let s0 ← (b64Val c0).elim (.error ()) .ok
      let s1 ← (b64Val c1).elim (.error ()) .ok
      if c2 = b64Pad ∧ c3 = b64Pad ∧ rest = [] then
        .ok [s0 * 4 + s1 / 16]
      else if c3 = b64Pad ∧ rest = [] then do
        let s2 ← (b64Val c2).elim (.error ()) .ok
        .ok [s0 * 4 + s1 / 16, s1 % 16 * 16 + s2 / 4]
      else do
        let s2 ← (b64Val c2).elim (.error ()) .ok
        let s3 ← (b64Val c3).elim (.error ()) .ok
        let bs ← b64decode rest
        .ok ((s0 * 4 + s1 / 16) :: (s1 % 16 * 16 + s2 / 4) :: (s2 % 4 * 64 + s3) :: bs)
  | _ => .error ()

/-! ## Device token formatter (`DeviceTokenFormater`) -/

/-- The configured `device_token_format`: `base64` or `hex`. -/
inductive TokFormat where
  | base64
  | hex
deriving DecidableEq

/-- `DeviceTokenFormater.__call__`: render a raw binary token as text in
the configured format. -/
def devtokfmt (fmt : TokFormat) (devtok : List Nat) : List Char :=
  match fmt with
  | .base64 => b64encode devtok
  | .hex => hexEncode devtok

/-! ## The extended-notification frame (`APNSAgent.run`, lines 616-619)

`struct.pack('> B II H<n>s H<m>s', 1, ident, expiry, len(bintok),
bintok, len(payload), payload)`.
-/

/-- `_EXTENDEDNOTIFICATION = 1`, the command byte of a push frame. -/
def EXTENDEDNOTIFICATION : Nat := 1

/-- The frame built by `APNSAgent.run`:
`command:u8=1 || id:u32-be || expiry:u32-be || token_len:u16-be ||
token || payload_len:u16-be || payload`. -/
def packFrame (ident expiry : Nat) (bintok payload : List Nat) : List Nat :=
  EXTENDEDNOTIFICATION :: u32be ident ++ u32be expiry ++
    u16be bintok.length ++ bintok ++ u16be payload.length ++ payload

/-- Decode a byte string against the documented extended-notification
layout, recovering `(id, expiry, token, payload)`; `none` when the bytes
do not fit the layout exactly. -/
def decodeFrame (bs : List Nat) : Option (Nat × Nat × List Nat × List Nat) :=
  match bs with
  | 1 :: i3 :: i2 :: i1 :: i0 :: e3 :: e2 :: e1 :: e0 :: t1 :: t0 :: rest =>
      let toklen := readBE2 t1 t0
      let tok := rest.take toklen
      let rest2 := rest.drop toklen
      match rest2 with
      | p1 :: p0 :: rest3 =>
          if tok.length = toklen ∧ rest3.length = readBE2 p1 p0 then
            some (readBE4 i3 i2 i1 i0, readBE4 e3 e2 e1 e0, tok, rest3)
          else none
      | _ => none
  | _ => none

/-! ## `PersistentQueue` (the queue the pipeline actually uses)

`PersistentQueue(Queue.Queue)` backs an in-memory deque with an SQLite
table `tablename(data BLOB)` — note: no `inuse` column.  `__init__`
loads all rows in rowid order; `_put` inserts a row and appends
`(rowid, item)` to the deque; `_get` pops the head and immediately
`DELETE`s its row.  There is no acknowledgement operation touching the
database.
-/

/-- State of a `PersistentQueue`: the SQLite table (`rows`, in rowid
order, with the next rowid SQLite would assign) and the in-memory deque
of `(rowid, item)` pairs. -/
structure PQState (α : Type) where
  nextRowid : Nat
  rows : List (Nat × α)
  mem : List (Nat × α)
deriving DecidableEq

namespace PQState

/-- `PersistentQueue.__init__`: create the table if absent and load
every stored row, in rowid order, into the in-memory deque. -/
def init {α : Type} (rows : List (Nat × α)) : PQState α :=
  { nextRowid := (rows.map Prod.fst).foldr max 0 + 1
    rows := rows
    mem := rows }

/-- `PersistentQueue._put`: insert the item into the table (SQLite
assigns the next rowid) and append `(rowid, item)` to the deque. -/
def put {α : Type} (s : PQState α) (item : α) : PQState α :=
  { nextRowid := s.nextRowid + 1
    rows := s.rows ++ [(s.nextRowid, item)]
    mem := s.mem ++ [(s.nextRowid, item)] }

/-- `PersistentQueue._get`: pop the head of the deque, `DELETE` its row
from the table, and return the item (`r[1]`).  `none` when the queue is
empty (`Queue.get` would block). -/
def get {α : Type} [DecidableEq α] (s : PQState α) : Option (Nat × α) × PQState α :=
  match s.mem with
  | [] => (none, s)
  | r :: rest =>
      (some r,
       { nextRowid := s.nextRowid
         rows := s.rows.filter (fun row => row.1 ≠ r.1)
         mem := rest })

/-- A process restart: only the SQLite table survives; the queue is
reconstructed from it by `__init__`. -/
def restart {α : Type} (s : PQState α) : PQState α := init s.rows

end PQState

/-! ## `OrderedPersistentQueue` (not used by the push pipeline)

Its table is `tablename(inuse INTEGER DEFAULT 0, ordering REAL,
data BLOB)`; `__init__` runs `UPDATE tablename SET inuse = 0`; `get`
picks the `inuse = 0` row with least `ordering` and sets its
`inuse = 1`; `ack` deletes the row.
-/

/-- One row of an `OrderedPersistentQueue` table. -/
structure OPQRow (α : Type) where
  rowid : Nat
  inuse : Bool
  ordering : ℚ
  data : α

namespace OPQ

/-- `OrderedPersistentQueue.__init__`, crash-recovery step:
`UPDATE tablename SET inuse = 0` over the surviving rows. -/
def clearInUse {α : Type} (rows : List (OPQRow α)) : List (OPQRow α) :=
  rows.map (fun r => { r with inuse := false })

/-- `OrderedPersistentQueue._pick`: the first row, scanning in stored
order, among rows with `inuse = 0` of minimal `ordering`
(`SELECT ... WHERE inuse = 0 ORDER BY ordering LIMIT 1`); `none` when
every row is in use (the method would block on the condition
variable). -/
def pick {α : Type} (rows : List (OPQRow α)) : Option (OPQRow α) :=
  (rows.filter (fun r => !r.inuse)).foldl
    (fun acc r => match acc with
      | none => some r
      | some b => if r.ordering < b.ordering then some r else some b)
    none

/-- `OrderedPersistentQueue._grab`: `UPDATE ... SET inuse = 1 WHERE
rowid = ?`. -/
def grab {α : Type} (rows : List (OPQRow α)) (rowid : Nat) : List (OPQRow α) :=
  rows.map (fun r => if r.rowid = rowid then { r with inuse := true } else r)

/-- `OrderedPersistentQueue.get`: pick the next available row, then mark
it in use; returns the row together with the updated table. -/
def get {α : Type} (rows : List (OPQRow α)) : Option (OPQRow α) × List (OPQRow α) :=
  match pick rows with
  | none => (none, rows)
  | some r => (some r, grab rows r.rowid)

/-- `OrderedPersistentQueue._ack`: `DELETE ... WHERE rowid = ?`. -/
def ack {α : Type} (rows : List (OPQRow α)) (rowid : Nat) : List (OPQRow α) :=
  rows.filter (fun r => r.rowid ≠ rowid)

end OPQ

/-! ## `APNSRecentNotifications`

Two generations of id → token maps plus a rotation timestamp.  The
source's `lookup` has a scoping accident: `i1 = (i + 1) % 2` reads the
bare name `i`, which at run time resolves to the module-level loop
variable left over from `for i in range(apns_push_concurrency)` — that
is, `apns_push_concurrency - 1` — not `self.i`.  The embedding makes
that global an explicit parameter `gi` of `lookup`.
-/

/-- State of an `APNSRecentNotifications` window.  `rotatetime` is a
rational because `maxerrorwait` is parsed with `float()`. -/
structure RNState where
  rotatetime : ℚ
  tstamp : ℤ
  n0 : List (Nat × List Nat)
  n1 : List (Nat × List Nat)
  i : Nat
deriving DecidableEq

namespace RNState

/-- `APNSRecentNotifications.__init__` at wall-clock time `t`:
`rotatetime = 600 * maxerrorwait` when the wait is nonzero, else 10;
both maps empty; current index 0. -/
def init (t : ℤ) (maxerrorwait : ℚ) : RNState :=
  { rotatetime := if maxerrorwait ≠ 0 then 600 * maxerrorwait else 10
    tstamp := t
    n0 := []
    n1 := []
    i := 0 }

/-- The map at slot `k` (`self.n[k]`). -/
def slot (s : RNState) (k : Nat) : List (Nat × List Nat) :=
  if k % 2 = 0 then s.n0 else s.n1

/-- Overwrite the map at slot `k`. -/
def setSlot (s : RNState) (k : Nat) (m : List (Nat × List Nat)) : RNState :=
  if k % 2 = 0 then { s with n0 := m } else { s with n1 := m }

/-- `APNSRecentNotifications._rotate` at wall-clock time `t`: when
`now - tstamp >= rotatetime`, empty the other slot, make it current, and
restamp. -/
def rotate (s : RNState) (t : ℤ) : RNState :=
  if ((t - s.tstamp : ℤ) : ℚ) ≥ s.rotatetime then
    let j := (s.i + 1) % 2
    { (s.setSlot j []) with i := j, tstamp := t }
  else s

/-- `APNSRecentNotifications.record`: rotate, then insert
`ident ↦ notification` into the current map. -/
def record (s : RNState) (t : ℤ) (ident : Nat) (tok : List Nat) : RNState :=
  let s := s.rotate t
  s.setSlot s.i ((ident, tok) :: (s.slot s.i).filter (fun p => p.1 ≠ ident))

/-- `APNSRecentNotifications.lookup`: rotate, then consult
`self.n[self.i]` and fall back to `self.n[(i + 1) % 2]` — where `i` is
the *module-global* `gi` (the source reads the bare name `i`, not
`self.i`). -/
def lookup (s : RNState) (gi : Nat) (t : ℤ) (ident : Nat) :
    Option (List Nat) × RNState :=
  let s := s.rotate t
  let i0 := s.i
  let i1 := (gi + 1) % 2
  match (s.slot i0).lookup ident with
  | some n => (some n, s)
  | none => ((s.slot i1).lookup ident, s)

end RNState

/-! ## `APNSAgent._reallyprocesserror` -/

/-- `APNSAgent._error_responses`: the status-code table.  A status
outside it makes `_error_responses[st]` raise `KeyError`. -/
def errorResponses (st : Nat) : Option (List Char) :=
  if st = 0 then some "No error encourtered".data
  else if st = 1 then some "Processing error".data
  else if st = 2 then some "Missing device token".data
  else if st = 3 then some "Missing topic".data
  else if st = 4 then some "Missing payload".data
  else if st = 5 then some "Invalid token size".data
  else if st = 6 then some "Invalid topic size".data
  else if st = 7 then some "Invalid payload size".data
  else if st = 8 then some "Invalid token".data
  else if st = 255 then some "None (unknown)".data
  else none

/-- `_INVALIDTOKENSTATUS = 8`. -/
def INVALIDTOKENSTATUS : Nat := 8

/-- What `self.sock.recv()` produced in `_reallyprocesserror`: a socket
error, or a byte string. -/
inductive RecvResult where
  | sockError
  | bytes (bs : List Nat)

/-- Outcome of `_reallyprocesserror`: `closed` (returns `False`),
`badSize` (returns `True`, nothing enqueued), `keyError` (the status is
outside `_error_responses`; the exception propagates, nothing
enqueued), or `handled` with the optional record the handler `put` on
the feedback queue. -/
inductive ErrOutcome where
  | closed
  | badSize (n : Nat)
  | keyError (st : Nat)
  | handled (feedback : Option (Nat × List Char))
deriving DecidableEq

/-- `APNSAgent._reallyprocesserror` at wall-clock time `t`, with token
format `fmt` and module-global loop index `gi`: read one error frame
`command:u8 || status:u8 || id:u32-be`; on a 6-byte frame, look the id
up in the recent-notification window and, if `status == 8`, enqueue
`(0, token-text)` on the feedback queue. -/
def reallyprocesserror (fmt : TokFormat) (gi : Nat) (t : ℤ) (s : RNState)
    (recv : RecvResult) : ErrOutcome × RNState :=
  match recv with
  | .sockError => (.closed, s)
  | .bytes [] => (.closed, s)
  | .bytes bs =>
      match bs with
      | [cmd, st, i3, i2, i1, i0] =>
          let _ := cmd
          let errident := readBE4 i3 i2 i1 i0
          let (found, s) := s.lookup gi t errident
          let errdevtok := match found with
            | none => "unknown".data
            | some raw => devtokfmt fmt raw
          match errorResponses st with
          | none => (.keyError st, s)
          | some _ =>
              if st = INVALIDTOKENSTATUS then
                (.handled (some (0, errdevtok)), s)
              else
                (.handled none, s)
      | _ => (.badSize bs.length, s)

/-! ## `TLSConnectionMaker.__call__` -/

/-- How one connection attempt failed: `socket.gaierror`,
`ssl.SSLError`, or any other exception. -/
inductive DialFailure where
  | gaierror
  | sslError
  | other
deriving DecidableEq

/-- The sleep chosen after a failed attempt when `sleeptime > 0`:
1 second after address-resolution failure, the full `sleeptime` after a
TLS error, and `(sleeptime + 9) / 10` — Python 2 integer (floor)
division — otherwise. -/
def retrySleep (sleeptime : Nat) : DialFailure → Nat
  | .gaierror => 1
  | .sslError => sleeptime
  | .other => (sleeptime + 9) / 10

/-- `TLSConnectionMaker.__call__` run against a trace of attempt
outcomes: returns `some (sleeps, connected)` where `sleeps` are the
sleeps performed, and `connected` tells whether a connection was
returned (`false` = the probe-mode `None` return); `none` when the
trace ends with the loop still running. -/
def dialTrace (sleeptime : Nat) : List (Except DialFailure Unit) → Option (List Nat × Bool)
  | [] => none
  | .ok _ :: _ => some ([], true)
  | .error e :: rest =>
      if sleeptime = 0 then some ([], false)
      else match dialTrace sleeptime rest with
        | some (sleeps, r) => some (retrySleep sleeptime e :: sleeps, r)
        | none => none

/-! ## `APNSAgent.run`: pull timeout and the dequeue-time drop -/

/-- The timeout computed at the top of every iteration of
`APNSAgent.run` and passed to `queue.get`: `None` when no socket is
open, else 1 second. -/
def pullTimeout (sockOpen : Bool) : Option Nat :=
  if sockOpen then some 1 else none

/-- The doubling performed in the `Queue.Empty` branch (lines 597-599):
`timeout = timeout * 2; if timeout > 10: timeout = None`.  The next
iteration recomputes `timeout` from scratch, so this value is never
read. -/
def emptyPollDouble (timeout : Option Nat) : Option Nat :=
  match timeout with
  | none => none
  | some v => if v * 2 > 10 then none else some (v * 2)

/-- Socket state after one empty poll: `_processerror` (run when the
socket polled readable) closes the socket. -/
def emptyPollNext (sockOpen readable : Bool) : Bool :=
  if readable then false else sockOpen

/-- The timeouts successively passed to `queue.get` across a run of
empty polls, given the readability observed at each poll. -/
def agentPullTimeouts (sockOpen : Bool) : List Bool → List (Option Nat)
  | [] => []
  | readable :: rest =>
      pullTimeout sockOpen :: agentPullTimeouts (emptyPollNext sockOpen readable) rest

/-- A queued notification as the push queue holds it: the 5-tuple
`(ident, creation, expiry, devtok-as-base64-text, payload)` that
`APNSListener._perform_send` enqueues. -/
structure Notif where
  ident : Nat
  creation : ℤ
  expiry : ℤ
  devtok : List Char
  payload : List Char
deriving DecidableEq

/-- What `APNSAgent.run` does with a dequeued notification: either the
lag-check drop (`continue`, before anything touches the socket) or
proceed to build and send the frame. -/
inductive DequeueAction where
  | dropped
  | send (frame : List Nat)
deriving DecidableEq

/-- The dequeue-time decision of `APNSAgent.run` at wall-clock time `t`:
drop when `now() - creation > maxnotiflag`, else build the
extended-notification frame from the base64-decoded token. -/
def agentHandleItem (t : ℤ) (maxnotiflag : ℤ) (n : Notif) : DequeueAction :=
  if t - n.creation > maxnotiflag then .dropped
  else
    let bintok := (b64decode n.devtok).toOption.getD []
    .send (packFrame n.ident n.expiry.toNat bintok (n.payload.map Char.toNat))

/-- One dequeue step of `APNSAgent.run` against the push queue: `get`
an item (if any) and decide on it.  Returns the new queue state, the
dequeued row, and the action taken. -/
def agentDequeueStep (t maxnotiflag : ℤ) (q : PQState Notif) :
    PQState Notif × Option (Nat × Notif) × Option DequeueAction :=
  match q.get with
  | (none, q) => (q, none, none)
  | (some r, q) => (q, some r, some (agentHandleItem t maxnotiflag r.2))

/-! ## The Listener (`Listener`, `APNSListener`)

Text handling models Python 2 semantics: `\s` whitespace,
`re.split(pattern, s, maxsplit)` with `maxsplit = 0` meaning unlimited,
`int()` on decimal strings.

Two source accidents are embedded faithfully:
* `Listener._parse_send` unpacks `re.split(_WHTSP, cmdargs, nargs)`
  (with `nargs = 1`) into `arglist, cmdargs`, so `arglist` is the first
  *field as a plain string*, and `APNSListener._parse_send` then reads
  `arglist[0]` — the first *character* of the expiry field;
* `Listener.run` replies on success with `_send_ok(res)` — a bare name
  that does not exist at module scope, so the call raises `NameError`
  and no `OK` reply is ever sent.
-/

/-- Python regex `\s`: space, tab, newline, carriage return, vertical
tab, form feed. -/
def isSpace (c : Char) : Bool :=
  c.toNat = 32 || c.toNat = 9 || c.toNat = 10 || c.toNat = 13 ||
  c.toNat = 11 || c.toNat = 12

/-- `str.strip()`: drop whitespace from both ends. -/
def pyStrip (cs : List Char) : List Char :=
  ((cs.dropWhile isSpace).reverse.dropWhile isSpace).reverse

/-- Worker for `re.split("\\s+", s, maxsplit)`: `acc` holds the current
field reversed; a whitespace run ends a field; when `maxsplit = 1` the
remainder after the run is returned whole; `maxsplit = 0` means
unlimited.  `fuel` (instantiated with the input length, which skipping a
whitespace run never increases) makes the recursion structural. -/
def splitWSGo (fuel : Nat) (maxsplit : Nat) (acc : List Char) (cs : List Char) :
    List (List Char) :=
  match fuel, cs with
  | _, [] => [acc.reverse]
  | 0, cs => [acc.reverse ++ cs]
  | fuel + 1, c :: rest =>
      if isSpace c then
        let after := rest.dropWhile isSpace
        if maxsplit = 1 then [acc.reverse, after]
        else acc.reverse :: splitWSGo fuel (maxsplit - 1) [] after
      else splitWSGo fuel maxsplit (c :: acc) rest

/-- `re.split("\\s+", s, maxsplit)` (on an already-stripped string this
is word splitting with at most `maxsplit` cuts; `0` = unlimited). -/
def splitWS (maxsplit : Nat) (cs : List Char) : List (List Char) :=
  splitWSGo cs.length maxsplit [] cs

/-- The numeric value of a nonempty all-digit string; `none`
otherwise. -/
def digitsVal : List Char → Option Nat
  | [] => none
  | cs => cs.foldl (fun acc c =>
      match acc with
      | none => none
      | some v => if 48 ≤ c.toNat ∧ c.toNat ≤ 57 then some (v * 10 + (c.toNat - 48)) else none)
      (some 0)

/-- Python `int()` on a string: strip whitespace, optional sign, then
decimal digits; `none` models the `ValueError`. -/
def parseIntPy (cs : List Char) : Option ℤ :=
  match pyStrip cs with
  | c :: rest =>
      if c.toNat = 43 then (digitsVal rest).map Int.ofNat
      else if c.toNat = 45 then (digitsVal rest).map (fun n => -(n : ℤ))
      else (digitsVal (c :: rest)).map Int.ofNat
  | [] => none

/-- `Listener._parse_expiry` at wall-clock time `t`: strip one leading
`+` (`re.subn`); parse the rest as an integer; a stripped `+` makes the
value relative to `now()`. -/
def parse_expiry (t : ℤ) (cs : List Char) : Option ℤ :=
  match cs with
  | c :: rest =>
      if c.toNat = 43 then (parseIntPy rest).map (fun v => t + v)
      else parseIntPy (c :: rest)
  | [] => parseIntPy []

/-- `_PAYLOADMAXLEN = 256`. -/
def PAYLOADMAXLEN : Nat := 256

/-- Where `APNSListener._parse_send` fails.  `invalidInput` covers
exceptions that escape `_parse_send` and are caught in `Listener.run`
(`"Invalid input (%s)"`), including the `ValueError` of a bad hex digit
and the `TypeError` raised by the badly-formed `%`-format on the
payload-too-long path. -/
inductive ParseErr where
  | invalidExpiry (field : List Char)
  | badB64 (dt : List Char)
  | badTokLen (len : Nat) (dt : List Char)
  | payloadTooLong
  | invalidInput
deriving DecidableEq

/-- The `ERROR` reply `_send_error` (or the `run` catch-all) sends for
each failure; bodies are abbreviated where the source interpolates
values, the `ERROR ` prefix is exact. -/
def errReply : ParseErr → List Char
  | .invalidExpiry f => "ERROR Invalid expiry value: ".data ++ f
  | .badB64 dt => "ERROR Wrong base64 encoding for device token: ".data ++ dt
  | .badTokLen _ dt => "ERROR Wrong device token length: ".data ++ dt
  | .payloadTooLong => "ERROR Invalid input".data
  | .invalidInput => "ERROR Invalid input".data

/-- The token branch of `APNSListener._parse_send`: a 64-character
argument is read as hex pairs (a bad digit raises `ValueError`, caught
only in `run`); anything else goes through
`base64.standard_b64decode`. -/
def parse_token (dt : List Char) : Except ParseErr (List Nat) :=
  if dt.length = DEVTOKLEN * 2 then
    match decodeHexPairs dt with
    | some bs => .ok bs
    | none => .error .invalidInput
  else
    match b64decode dt with
    | .ok bs => .ok bs
    | .error _ => .error (.badB64 dt)

/-- One iteration of the token loop: decode, check the decoded length
is exactly `DEVTOKLEN`, and re-encode as base64 text (the queue stores
tokens as text). -/
def check_token (dt : List Char) : Except ParseErr (List Char) := do
  let bs ← parse_token dt
  if bs.length ≠ DEVTOKLEN then .error (.badTokLen bs.length dt)
  else .ok (b64encode bs)

/-- The token loop of `APNSListener._parse_send` over all device-token
arguments; the first failure wins. -/
def check_tokens : List (List Char) → Except ParseErr (List (List Char))
  | [] => .ok []
  | dt :: rest => do
      let good ← check_token dt
      let goods ← check_tokens rest
      .ok (good :: goods)

/-- `APNSListener._parse_send` after field splitting, at wall-clock
time `t`: parse the expiry from `arglist[0]` — the first *character* of
the expiry field (the string/list slip described above) — then validate
every token, then the payload length. -/
def apns_parse_send (t : ℤ) (expiryField : List Char) (devtoks : List (List Char))
    (payload : List Char) : Except ParseErr (ℤ × List (List Char) × List Char) := do
  let efirst := expiryField.take 1
  let expiry ← match parse_expiry t efirst with
    | some e => Except.ok e
    | none => Except.error (ParseErr.invalidExpiry efirst)
  let goodtoks ← check_tokens devtoks
  if payload.length > PAYLOADMAXLEN then Except.error ParseErr.payloadTooLong
  else Except.ok (expiry, goodtoks, payload)

/-- Field splitting of `Listener._parse_send` (with `nargs = 1`)
followed by `APNSListener._parse_send`: split off the expiry field and
the token count, take `ntok` token fields, and treat the remainder as
the payload.  Unpack and index errors are caught in `run` as
`invalidInput`. -/
def parse_send_msg (t : ℤ) (msg : List Char) :
    Except ParseErr (ℤ × List (List Char) × List Char) :=
  let cmdargs := msg.drop 5
  match splitWS 1 cmdargs with
  | [arglist, rest1] =>
      (match splitWS 1 rest1 with
      | [ntokStr, rest2] =>
          (match parseIntPy ntokStr with
          | none => .error .invalidInput
          | some ntokZ =>
              if ntokZ < 0 then .error .invalidInput
              else
                let ntok := ntokZ.toNat
                let l := splitWS ntok rest2
                if l.length < ntok + 1 then .error .invalidInput
                else apns_parse_send t arglist (l.take ntok) (l.getD ntok []))
      | _ => .error .invalidInput)
  | _ => .error .invalidInput

/-- The Listener state: `self.curid` and the persisted `ident.cur`
row. -/
structure ListenerState where
  curid : Nat
  identTable : Nat
deriving DecidableEq

/-- `APNSListener.run` start-up: read `ident.cur`, inserting 0 when the
table is empty. -/
def ListenerState.init (row : Option Nat) : ListenerState :=
  { curid := row.getD 0, identTable := row.getD 0 }

/-- The enqueue-and-assign loop of `APNSListener._perform_send`: one
`apnsq.put((curid, now(), expiry, devtok, payload))` per token, ids
assigned in token order. -/
def perform_send_loop (t : ℤ) (expiry : ℤ) (payload : List Char) :
    Nat → List (List Char) → List Notif × List (List Char)
  | _, [] => ([], [])
  | curid, d :: ds =>
      let (ns, ids) := perform_send_loop t expiry payload (curid + 1) ds
      ({ ident := curid, creation := t, expiry := expiry, devtok := d,
         payload := payload } :: ns,
       Nat.toDigits 10 curid :: ids)

/-- `' '.join(...)`. -/
def joinSpace : List (List Char) → List Char
  | [] => []
  | [x] => x
  | x :: rest => x ++ [Char.ofNat 32] ++ joinSpace rest

/-- `APNSListener._perform_send` at wall-clock time `t`: first
`UPDATE ident SET cur = curid + len(devtoks)`, then enqueue one
notification per token, assigning consecutive ids; returns the new
state, the enqueued notifications, and the id string `res`. -/
def perform_send (t : ℤ) (st : ListenerState) (expiry : ℤ)
    (devtoks : List (List Char)) (payload : List Char) :
    ListenerState × List Notif × List Char :=
  let (notifs, ids) := perform_send_loop t expiry payload st.curid devtoks
  ({ curid := st.curid + devtoks.length, identTable := st.curid + devtoks.length },
   notifs, joinSpace ids)

/-- What the Listener did with one request: sent a reply, or raised
`NameError` evaluating the bare `_send_ok` (carrying the `res` string
that was computed but never sent). -/
inductive Reply where
  | sent (msg : List Char)
  | nameErrorSendOk (res : List Char)
deriving DecidableEq

/-- One request through `Listener.run` with the `APNSListener`
overrides, at wall-clock time `t`: strip, dispatch on the `send ` /
`feedback` prefix, parse, perform, reply.  On a parse failure
`_send_error` has already sent an `ERROR` reply; on success the bare
`_send_ok(res)` raises `NameError` before any reply is sent. -/
def listener_run_once (t : ℤ) (st : ListenerState) (msgRaw : List Char) :
    ListenerState × List Notif × Reply :=
  if ((pyStrip msgRaw).take 5).map Char.toLower = "send ".data then
    match parse_send_msg t (pyStrip msgRaw) with
    | .error e => (st, [], .sent (errReply e))
    | .ok (expiry, toks, payload) =>
        let (st, notifs, res) := perform_send t st expiry toks payload
        (st, notifs, .nameErrorSendOk res)
  else if "feedback".data.isPrefixOf ((pyStrip msgRaw).map Char.toLower) then
    (st, [], .nameErrorSendOk [])
  else
    (st, [], .sent ("ERROR Invalid input".data))

/-! ## Helper lemmas -/

theorem hexVal_hexDigitChar : ∀ n : Fin 16, hexVal (hexDigitChar n.val) = some n.val := by
  decide

theorem hexEncode_length (t : List Nat) : (hexEncode t).length = 2 * t.length := by
  induction t with
  | nil => simp [hexEncode]
  | cons b rest ih => simp [hexEncode, byteToHex, ih]; omega

theorem decodeHexPairs_hexEncode (t : List Nat) (ht : ∀ b ∈ t, b < 256) :
    decodeHexPairs (hexEncode t) = some t := by
  induction t with
  | nil => simp [hexEncode, decodeHexPairs]
  | cons b rest ih =>
      have hb : b < 256 := ht b (by simp)
      have h0 : hexVal (hexDigitChar (b / 16)) = some (b / 16) :=
        hexVal_hexDigitChar ⟨b / 16, by omega⟩
      have h1 : hexVal (hexDigitChar (b % 16)) = some (b % 16) :=
        hexVal_hexDigitChar ⟨b % 16, by omega⟩
      have hrest := ih (fun x hx => ht x (by simp [hx]))
      simp [hexEncode, byteToHex, decodeHexPairs, h0, h1, hrest]
      omega

theorem b64Val_b64Char : ∀ s : Fin 64, b64Val (b64Char s.val) = some s.val := by
  decide

theorem b64Char_ne_pad : ∀ s : Fin 64, b64Char s.val ≠ b64Pad := by
  decide

theorem b64encode_length (t : List Nat) :
    (b64encode t).length = 4 * ((t.length + 2) / 3) := by
  match t with
  | [] => simp [b64encode]
  | [b0] => simp [b64encode]
  | [b0, b1] => simp [b64encode]
  | b0 :: b1 :: b2 :: rest =>
      have ih := b64encode_length rest
      simp [b64encode, ih]
      omega

theorem b64decode_b64encode (t : List Nat) (ht : ∀ b ∈ t, b < 256) :
    b64decode (b64encode t) = Except.ok t := by
  match t with
  | [] => simp [b64encode, b64decode]
  | [b0] =>
      have hb0 : b0 < 256 := ht b0 (by simp)
      have h0 : b64Val (b64Char (b0 / 4)) = some (b0 / 4) := b64Val_b64Char ⟨_, by omega⟩
      have h1 : b64Val (b64Char (b0 % 4 * 16)) = some (b0 % 4 * 16) :=
        b64Val_b64Char ⟨_, by omega⟩
      simp [b64encode, b64decode, h0, h1, Bind.bind, Except.bind]
      omega
  | [b0, b1] =>
      have hb0 : b0 < 256 := ht b0 (by simp)
      have hb1 : b1 < 256 := ht b1 (by simp)
      have h0 : b64Val (b64Char (b0 / 4)) = some (b0 / 4) := b64Val_b64Char ⟨_, by omega⟩
      have h1 : b64Val (b64Char (b0 % 4 * 16 + b1 / 16)) = some (b0 % 4 * 16 + b1 / 16) :=
        b64Val_b64Char ⟨_, by omega⟩
      have h2 : b64Val (b64Char (b1 % 16 * 4)) = some (b1 % 16 * 4) :=
        b64Val_b64Char ⟨_, by omega⟩
      have hne : b64Char (b1 % 16 * 4) ≠ b64Pad := b64Char_ne_pad ⟨_, by omega⟩
      simp [b64encode, b64decode, h0, h1, h2, hne, Bind.bind, Except.bind]
      refine ⟨by omega, by omega⟩
  | b0 :: b1 :: b2 :: rest =>
      have hb0 : b0 < 256 := ht b0 (by simp)
      have hb1 : b1 < 256 := ht b1 (by simp)
      have hb2 : b2 < 256 := ht b2 (by simp)
      have ih := b64decode_b64encode rest (fun x hx => ht x (by simp [hx]))
      have h0 : b64Val (b64Char (b0 / 4)) = some (b0 / 4) := b64Val_b64Char ⟨_, by omega⟩
      have h1 : b64Val (b64Char (b0 % 4 * 16 + b1 / 16)) = some (b0 % 4 * 16 + b1 / 16) :=
        b64Val_b64Char ⟨_, by omega⟩
      have h2 : b64Val (b64Char (b1 % 16 * 4 + b2 / 64)) = some (b1 % 16 * 4 + b2 / 64) :=
        b64Val_b64Char ⟨_, by omega⟩
      have h3 : b64Val (b64Char (b2 % 64)) = some (b2 % 64) := b64Val_b64Char ⟨_, by omega⟩
      have hne2 : b64Char (b1 % 16 * 4 + b2 / 64) ≠ b64Pad := b64Char_ne_pad ⟨_, by omega⟩
      have hne3 : b64Char (b2 % 64) ≠ b64Pad := b64Char_ne_pad ⟨_, by omega⟩
      simp [b64encode, b64decode, h0, h1, h2, h3, hne2, hne3, ih, Bind.bind, Except.bind]
      refine ⟨by omega, by omega, by omega⟩

theorem readBE2_u16be (n : Nat) (h : n < 65536) :
    readBE2 (n / 256 % 256) (n % 256) = n := by
  simp [readBE2]; omega

theorem readBE4_u32be (n : Nat) (h : n < 4294967296) :
    readBE4 (n / 16777216 % 256) (n / 65536 % 256) (n / 256 % 256) (n % 256) = n := by
  simp [readBE4]; omega

/-! ## C5: the extended-notification frame -/

/-- **C5.** For every notification with a 32-byte token and payload of
length at most 256, the frame built by the Push Agent is exactly
`command:u8=1 || id:u32-be || expiry:u32-be || token_len:u16-be=32 ||
token:32B || payload_len:u16-be || payload` — so its length is
`45 + payload length` — and decoding that byte string against this
layout recovers the original id, expiry, token and payload. -/
theorem C5_frame_roundtrip (ident expiry : Nat) (tok payload : List Nat)
    (hi : ident < 4294967296) (he : expiry < 4294967296)
    (htok : tok.length = 32) (hp : payload.length ≤ 256) :
    (packFrame ident expiry tok payload).length = 45 + payload.length ∧
    decodeFrame (packFrame ident expiry tok payload) =
      some (ident, expiry, tok, payload) := by
  constructor
  · simp [packFrame, u32be, u16be, EXTENDEDNOTIFICATION]
    omega
  · have hshape : packFrame ident expiry tok payload =
        1 :: ident / 16777216 % 256 :: ident / 65536 % 256 :: ident / 256 % 256 ::
        ident % 256 :: expiry / 16777216 % 256 :: expiry / 65536 % 256 ::
        expiry / 256 % 256 :: expiry % 256 :: tok.length / 256 % 256 ::
        tok.length % 256 ::
        (tok ++ payload.length / 256 % 256 :: payload.length % 256 :: payload) := by
      simp [packFrame, u32be, u16be, EXTENDEDNOTIFICATION]
    rw [hshape]
    have htake : (tok ++ payload.length / 256 % 256 :: payload.length % 256 ::
        payload).take (readBE2 (tok.length / 256 % 256) (tok.length % 256)) = tok := by
      rw [readBE2_u16be tok.length (by omega)]
      exact List.take_left tok _
    have hdrop : (tok ++ payload.length / 256 % 256 :: payload.length % 256 ::
        payload).drop (readBE2 (tok.length / 256 % 256) (tok.length % 256)) =
        payload.length / 256 % 256 :: payload.length % 256 :: payload := by
      rw [readBE2_u16be tok.length (by omega)]
      exact List.drop_left tok _
    simp only [decodeFrame, htake, hdrop]
    rw [readBE2_u16be tok.length (by omega), readBE2_u16be payload.length (by omega),
        readBE4_u32be ident hi, readBE4_u32be expiry he]
    simp

theorem C5_frame_roundtrip_witness :
    (packFrame 0 100 (List.replicate 32 0) [104, 105]).length = 45 + 2 ∧
    decodeFrame (packFrame 0 100 (List.replicate 32 0) [104, 105]) =
      some (0, 100, List.replicate 32 0, [104, 105]) :=
  C5_frame_roundtrip 0 100 (List.replicate 32 0) [104, 105]
    (by norm_num) (by norm_num) (by simp) (by simp)

/-! ## C6: token parsing -/

theorem parse_token_hexEncode (t : List Nat) (hl : t.length = DEVTOKLEN)
    (hb : ∀ b ∈ t, b < 256) : parse_token (hexEncode t) = .ok t := by
  have hlen : (hexEncode t).length = DEVTOKLEN * 2 := by
    rw [hexEncode_length, hl]
    decide
  simp [parse_token, hlen, decodeHexPairs_hexEncode t hb]

theorem parse_token_b64encode (t : List Nat) (hl : t.length = DEVTOKLEN)
    (hb : ∀ b ∈ t, b < 256) : parse_token (b64encode t) = .ok t := by
  have hlen : (b64encode t).length = 44 := by
    rw [b64encode_length, hl]
    decide
  have hne : ¬ ((b64encode t).length = DEVTOKLEN * 2) := by
    rw [hlen]; norm_num [DEVTOKLEN]
  simp [parse_token, hne, b64decode_b64encode t hb]

theorem check_tokens_error (dts : List (List Char)) (dt : List Char) (bs : List Nat)
    (hmem : dt ∈ dts) (hok : parse_token dt = .ok bs) (hlen : bs.length ≠ DEVTOKLEN) :
    ∃ e, check_tokens dts = .error e := by
  induction dts with
  | nil => cases hmem
  | cons d rest ih =>
      rcases List.mem_cons.mp hmem with rfl | htail
      · refine ⟨.badTokLen bs.length dt, ?_⟩
        simp [check_tokens, check_token, hok, hlen, Bind.bind, Except.bind]
      · rcases hd : check_token d with e | good
        · exact ⟨e, by simp [check_tokens, hd, Bind.bind, Except.bind]⟩
        · obtain ⟨e, he⟩ := ih htail
          exact ⟨e, by simp [check_tokens, hd, he, Bind.bind, Except.bind]⟩

theorem errReply_starts_error (e : ParseErr) : ∃ b, errReply e = "ERROR ".data ++ b := by
  cases e with
  | invalidExpiry f =>
      exact ⟨"Invalid expiry value: ".data ++ f, by simp [errReply]⟩
  | badB64 dt =>
      exact ⟨"Wrong base64 encoding for device token: ".data ++ dt, by simp [errReply]⟩
  | badTokLen n dt =>
      exact ⟨"Wrong device token length: ".data ++ dt, by simp [errReply]⟩
  | payloadTooLong => exact ⟨"Invalid input".data, by decide⟩
  | invalidInput => exact ⟨"Invalid input".data, by decide⟩

/-- **C6.** For any 32-byte token `t`, a send request presenting `t` as
64 hexadecimal characters decodes back to `t`, and presenting `t` as
standard base64 decodes back to `t`; any token argument whose decoded
form is not exactly 32 bytes makes `_parse_send` fail with a reply
beginning `ERROR `, and a failed parse makes the Listener send that
`ERROR` reply and enqueue nothing for the request. -/
theorem C6_token_parsing :
    (∀ t : List Nat, t.length = DEVTOKLEN → (∀ b ∈ t, b < 256) →
        parse_token (hexEncode t) = .ok t ∧ parse_token (b64encode t) = .ok t) ∧
    (∀ (tw : ℤ) (ef : List Char) (dts : List (List Char)) (payload : List Char)
        (dt : List Char) (bs : List Nat), dt ∈ dts → parse_token dt = .ok bs →
        bs.length ≠ DEVTOKLEN →
        ∃ e b, apns_parse_send tw ef dts payload = .error e ∧
          errReply e = "ERROR ".data ++ b) ∧
    (∀ (tw : ℤ) (st : ListenerState) (msgRaw : List Char) (e : ParseErr),
        ((pyStrip msgRaw).take 5).map Char.toLower = "send ".data →
        parse_send_msg tw (pyStrip msgRaw) = .error e →
        listener_run_once tw st msgRaw = (st, [], .sent (errReply e))) := by
  refine ⟨?_, ?_, ?_⟩
  · intro t hl hb
    exact ⟨parse_token_hexEncode t hl hb, parse_token_b64encode t hl hb⟩
  · intro tw ef dts payload dt bs hmem hok hlen
    rcases hexp : parse_expiry tw (ef.take 1) with _ | exp
    · obtain ⟨b, hb⟩ := errReply_starts_error (.invalidExpiry (ef.take 1))
      refine ⟨.invalidExpiry (ef.take 1), b, ?_, hb⟩
      unfold apns_parse_send
      dsimp only
      rw [hexp]
      simp [Bind.bind, Except.bind]
    · obtain ⟨e, he⟩ := check_tokens_error dts dt bs hmem hok hlen
      obtain ⟨b, hb⟩ := errReply_starts_error e
      refine ⟨e, b, ?_, hb⟩
      unfold apns_parse_send
      dsimp only
      rw [hexp]
      simp [Bind.bind, Except.bind, he]
  · intro tw st msgRaw e hsend herr
    simp [listener_run_once, hsend, herr]

theorem C6_token_parsing_witness :
    parse_token (hexEncode (List.replicate 32 0)) = .ok (List.replicate 32 0) ∧
    parse_token (b64encode (List.replicate 32 0)) = .ok (List.replicate 32 0) ∧
    (∃ e b, apns_parse_send 0 "60".data ["AAAA".data] "p".data = .error e ∧
        errReply e = "ERROR ".data ++ b) ∧
    listener_run_once 0 (ListenerState.init none) "send 60 1 AAAA p".data =
      (ListenerState.init none, [],
       .sent (errReply (.badTokLen 3 "AAAA".data))) := by
  refine ⟨(C6_token_parsing.1 (List.replicate 32 0) rfl (by simp)).1,
          (C6_token_parsing.1 (List.replicate 32 0) rfl (by simp)).2,
          C6_token_parsing.2.1 0 "60".data ["AAAA".data] "p".data "AAAA".data
            [0, 0, 0] (by simp) (by rfl) (by decide),
          C6_token_parsing.2.2 0 (ListenerState.init none) "send 60 1 AAAA p".data
            (.badTokLen 3 "AAAA".data) (by decide) (by rfl)⟩

/-! ## C1: the pipeline queue has no in-use marker -/

/-- When `PersistentQueue.get` returns a row, that row has been deleted
from the store, and a restart reloads exactly the surviving rows. -/
theorem PQState.get_some_spec {α : Type} [DecidableEq α] (s : PQState α)
    (r : Nat × α) (s2 : PQState α) (hget : s.get = (some r, s2)) :
    (∀ row ∈ s2.rows, row.1 ≠ r.1) ∧ s2.restart.mem = s2.rows := by
  cases hmem : s.mem with
  | nil => simp [PQState.get, hmem] at hget
  | cons r0 rest =>
      simp only [PQState.get, hmem] at hget
      obtain ⟨hr, hs2⟩ := Prod.mk.injEq .. ▸ hget
      cases hr
      constructor
      · intro row hrow
        rw [← hs2] at hrow
        simp only [List.mem_filter] at hrow
        simpa using hrow.2
      · rw [← hs2]
        rfl

/-- **C1, counterexample.**  The pipeline queue (`PersistentQueue`)
hands an item to a consumer via `get` — here row `(1, "n")`, never
acknowledged — yet after a restart the reconstructed queue is empty:
`get` deleted the row from the store immediately, so the in-flight item
does not reappear (the claim says it reappears exactly once). -/
theorem C1_counterexample :
    ((PQState.init [(1, "n".data)]).get).1 = some (1, "n".data) ∧
    ((PQState.init [(1, "n".data)]).get).2.restart.mem = [] ∧
    ((PQState.init [(1, "n".data)]).get).2.restart.rows = [] :=
  ⟨rfl, rfl, rfl⟩

/-- **C1 (amended).**  The pipeline push queue (`PersistentQueue`)
deletes a record from the persistent store the moment it leaves via
`get`, so a restart rebuilds the queue without any item handed out but
unacknowledged at crash time; the in-use marking — set by `get`, cleared
for every row at construction — belongs to `OrderedPersistentQueue`,
which the push pipeline does not instantiate. -/
theorem C1_amended :
    (∀ (s : PQState (List Char)) (r : Nat × List Char) (s2 : PQState (List Char)),
        s.get = (some r, s2) →
        (∀ row ∈ s2.rows, row.1 ≠ r.1) ∧ s2.restart.mem = s2.rows) ∧
    (∀ rows : List (OPQRow (List Char)), ∀ r ∈ OPQ.clearInUse rows, r.inuse = false) ∧
    (∀ (rows rows2 : List (OPQRow (List Char))) (r : OPQRow (List Char)),
        OPQ.get rows = (some r, rows2) →
        ∀ q ∈ rows2, q.rowid = r.rowid → q.inuse = true) := by
  refine ⟨?_, ?_, ?_⟩
  · intro s r s2 hget
    exact PQState.get_some_spec s r s2 hget
  · intro rows r hr
    simp only [OPQ.clearInUse, List.mem_map] at hr
    obtain ⟨p, _, hp⟩ := hr
    rw [← hp]
  · intro rows rows2 r hget q hq hrowid
    cases hpick : OPQ.pick rows with
    | none => simp [OPQ.get, hpick] at hget
    | some p =>
        simp only [OPQ.get, hpick] at hget
        obtain ⟨hr, hrows2⟩ := Prod.mk.injEq .. ▸ hget
        cases hr
        rw [← hrows2] at hq
        simp only [OPQ.grab, List.mem_map] at hq
        obtain ⟨x, _, hx⟩ := hq
        by_cases hxr : x.rowid = r.rowid
        · rw [← hx]
          simp [hxr]
        · rw [← hx] at hrowid
          simp [hxr] at hrowid

theorem C1_amended_witness :
    ((∀ row ∈ ({ nextRowid := 2, rows := [], mem := [] } : PQState (List Char)).rows,
        row.1 ≠ 1) ∧
     ({ nextRowid := 2, rows := [], mem := [] } : PQState (List Char)).restart.mem =
       ({ nextRowid := 2, rows := [], mem := [] } : PQState (List Char)).rows) ∧
    (∀ r ∈ OPQ.clearInUse [⟨1, true, 0, "n".data⟩], r.inuse = false) ∧
    (∀ q ∈ [(⟨1, true, 0, "n".data⟩ : OPQRow (List Char))],
        q.rowid = (⟨1, false, 0, "n".data⟩ : OPQRow (List Char)).rowid →
        q.inuse = true) :=
  ⟨C1_amended.1 (PQState.init [(1, "n".data)]) (1, "n".data) _ rfl,
   C1_amended.2.1 [⟨1, true, 0, "n".data⟩],
   C1_amended.2.2 [⟨1, false, 0, "n".data⟩] [⟨1, true, 0, "n".data⟩]
     ⟨1, false, 0, "n".data⟩ rfl⟩

/-! ## C2: the send path -/

/-- **C2 (code evaluation at the failing inputs).**  A relative-expiry
send (`send +60 1 <tok> hello`) is rejected outright — `_parse_send`
reads only the first character of the expiry field, `"+"`, which fails
to parse — so no ids are assigned and nothing is enqueued.  An
absolute-expiry send (`send 100 1 <tok> hello`) does increment the
counter and enqueue one notification, but with expiry `1` (the first
character of `"100"`), and the reply step hits the undefined module
name `_send_ok`, so the `OK 0` reply the claim requires is never
sent. -/
theorem C2_send_eval :
    listener_run_once 200 (ListenerState.init none)
        ("send +60 1 ".data ++ b64encode (List.replicate 32 0) ++ " hello".data) =
      (ListenerState.init none, [],
       .sent ("ERROR Invalid expiry value: +".data)) ∧
    listener_run_once 200 (ListenerState.init none)
        ("send 100 1 ".data ++ b64encode (List.replicate 32 0) ++ " hello".data) =
      ({ curid := 1, identTable := 1 },
       [{ ident := 0, creation := 200, expiry := 1,
          devtok := b64encode (List.replicate 32 0), payload := "hello".data }],
       .nameErrorSendOk "0".data) := by
  exact ⟨by decide, by decide⟩

/-! ## C3: error correlation misses the previous generation -/

/-- **C3 (code evaluation at the failing scenario).**  Configuration
`max_error_wait = 1`, `push_concurrency = 1` (module-global loop index
`gi = 0`).  Notification 7 with the all-zero token is recorded at
`t = 0`; at `t = 600` the window rotates, moving it to the previous
generation — where it still sits (second conjunct).  Yet the error
frame `{cmd=8, status=8, id=7}` produces a feedback record with token
`"unknown"`: `lookup` consults `n[self.i]` and then `n[(i + 1) % 2]`
with the *global* `i`, which here is the current map again, never the
previous one — and `"unknown"` is not the token text of notification 7
(third conjunct). -/
theorem C3_eval :
    (reallyprocesserror .base64 0 600
        ((RNState.init 0 1).record 0 7 (List.replicate 32 0))
        (.bytes [8, 8, 0, 0, 0, 7])).1 =
      .handled (some (0, "unknown".data)) ∧
    ((((RNState.init 0 1).record 0 7 (List.replicate 32 0)).rotate 600).slot
        ((((RNState.init 0 1).record 0 7 (List.replicate 32 0)).rotate 600).i + 1)).lookup 7 =
      some (List.replicate 32 0) ∧
    "unknown".data ≠ devtokfmt .base64 (List.replicate 32 0) := by
  have h1 : (RNState.init 0 1).record 0 7 (List.replicate 32 0) =
      (⟨600, 0, [(7, List.replicate 32 0)], [], 0⟩ : RNState) := by
    unfold RNState.init RNState.record RNState.rotate RNState.setSlot RNState.slot
    norm_num
  have h2 : (⟨600, 0, [(7, List.replicate 32 0)], [], 0⟩ : RNState).rotate 600 =
      (⟨600, 600, [(7, List.replicate 32 0)], [], 1⟩ : RNState) := by
    unfold RNState.rotate RNState.setSlot
    norm_num
  refine ⟨?_, ?_, by decide⟩
  · unfold reallyprocesserror RNState.lookup
    rw [h1, h2]
    simp only [RNState.slot]
    norm_num [errorResponses, INVALIDTOKENSTATUS]
  · rw [h1, h2]
    simp only [RNState.slot]
    norm_num

/-! ## C4: the dequeue-time drop checks lag, not expiry -/

/-- **C4, counterexample.**  A notification with `expiry_at = 100`
dequeued at `now() = 200` (well past expiry) but created at `199`
(lag 1 ≤ max lag 60) is *not* dropped: the agent frames and sends it.
The dequeue check compares `now() - created_at` against
`max_notification_lag` and never consults `expiry_at`. -/
theorem C4_counterexample :
    agentHandleItem 200 60
        { ident := 0, creation := 199, expiry := 100,
          devtok := b64encode (List.replicate 32 0), payload := "p".data } =
      .send (packFrame 0 100 (List.replicate 32 0) [112]) ∧
    (100 : ℤ) < 200 := by
  refine ⟨by decide, by decide⟩

/-- **C4 (amended).**  Every notification dequeued by a Push Agent
whose *lag* `now() - created_at` exceeds `max_notification_lag` at
dequeue time is dropped (logged) before any bytes are written to the
gateway socket — the action carries no frame — and it is never retried:
the queue row was already deleted by `get` and the drop path re-enqueues
nothing. -/
theorem C4_amended (tw maxlag : ℤ) (q q2 : PQState Notif) (r : Nat × Notif)
    (hget : q.get = (some r, q2)) (hlag : tw - r.2.creation > maxlag) :
    agentDequeueStep tw maxlag q = (q2, some r, some .dropped) ∧
    (∀ row ∈ q2.rows, row.1 ≠ r.1) := by
  have hhandle : agentHandleItem tw maxlag r.2 = .dropped := by
    simp [agentHandleItem, hlag]
  constructor
  · simp [agentDequeueStep, hget, hhandle]
  · exact (PQState.get_some_spec q r q2 hget).1

theorem C4_amended_witness :
    agentDequeueStep 100 60
        (PQState.init [(1, (⟨0, 0, 50, b64encode (List.replicate 32 0), "p".data⟩ : Notif))]) =
      (⟨2, [], []⟩,
       some (1, (⟨0, 0, 50, b64encode (List.replicate 32 0), "p".data⟩ : Notif)),
       some .dropped) ∧
    (∀ row ∈ (⟨2, [], []⟩ : PQState Notif).rows, row.1 ≠ 1) :=
  C4_amended 100 60 _ _
    (1, (⟨0, 0, 50, b64encode (List.replicate 32 0), "p".data⟩ : Notif))
    rfl (by decide)

/-! ## C7: dialer retry policy -/

/-- **C7, counterexample.**  With `retry_interval = 60`, the code
sleeps `(60 + 9) / 10 = 6` seconds after an unclassified failure —
Python 2 floor division — while the claimed formula
`ceil((retry_interval + 9) / 10)` gives 7. -/
theorem C7_counterexample :
    retrySleep 60 .other = 6 ∧ ⌈(((60 : ℚ) + 9) / 10 : ℚ)⌉ = 7 := by
  refine ⟨rfl, ?_⟩
  rw [Int.ceil_eq_iff]
  norm_num

/-- **C7 (amended).**  The TLS dialer, for `retry_interval > 0`, waits
1 second after an address-resolution failure, the full `retry_interval`
after a TLS error, and `⌊(retry_interval + 9) / 10⌋ = ⌈retry_interval / 10⌉`
seconds (at least 1) after any other failure, then retries; when
`retry_interval = 0` it attempts the connection exactly once and
returns null on any failure. -/
theorem C7_amended (s : Nat) :
    retrySleep s .gaierror = 1 ∧
    retrySleep s .sslError = s ∧
    retrySleep s .other = (s + 9) / 10 ∧
    (1 ≤ s → 1 ≤ retrySleep s .other ∧
      s ≤ retrySleep s .other * 10 ∧ retrySleep s .other * 10 < s + 10) ∧
    (∀ (e : DialFailure) (rest : List (Except DialFailure Unit)),
        dialTrace 0 (.error e :: rest) = some ([], false)) ∧
    (∀ rest, dialTrace s (.ok () :: rest) = some ([], true)) := by
  refine ⟨rfl, rfl, rfl, ?_, ?_, ?_⟩
  · intro hs
    refine ⟨?_, ?_, ?_⟩ <;> simp [retrySleep] <;> omega
  · intro e rest
    simp [dialTrace]
  · intro rest
    simp [dialTrace]

theorem C7_amended_witness :
    retrySleep 60 .gaierror = 1 ∧
    retrySleep 60 .sslError = 60 ∧
    retrySleep 60 .other = 6 ∧
    (1 ≤ retrySleep 60 .other ∧
      60 ≤ retrySleep 60 .other * 10 ∧ retrySleep 60 .other * 10 < 60 + 10) ∧
    dialTrace 0 [.error .sslError] = some ([], false) ∧
    dialTrace 60 [.ok ()] = some ([], true) :=
  ⟨(C7_amended 60).1, (C7_amended 60).2.1, (C7_amended 60).2.2.1,
   (C7_amended 60).2.2.2.1 (by norm_num),
   (C7_amended 60).2.2.2.2.1 .sslError [],
   (C7_amended 60).2.2.2.2.2 []⟩

/-! ## C8: the rotate interval has no floor of 10 -/

/-- **C8, counterexample.**  With configured `max_error_wait = 0.01`
(a nonzero float), the rotate interval is `600 × 0.01 = 6` seconds —
below the floor of 10 seconds the claim asserts for every configured
wait. -/
theorem C8_counterexample :
    (RNState.init 0 (1 / 100)).rotatetime = 6 ∧
    ¬ (10 ≤ (RNState.init 0 (1 / 100)).rotatetime) := by
  unfold RNState.init
  norm_num

/-- **C8 (amended).**  The recent-notification window interval equals
`600 ×` the configured `max_error_wait` whenever that wait is nonzero,
and 10 seconds exactly when the wait is zero (there is no general floor
of 10); the window rotates precisely when `now - rotation_ts ≥
rotate_interval`, and rotation empties only the older generation: the
other slot is cleared and becomes current, the previously current map
is kept, and the timestamp is reset to `now`. -/
theorem C8_amended (w : ℚ) (t0 tw : ℤ) (s : RNState) :
    (w ≠ 0 → (RNState.init t0 w).rotatetime = 600 * w) ∧
    (w = 0 → (RNState.init t0 w).rotatetime = 10) ∧
    (((tw - s.tstamp : ℤ) : ℚ) < s.rotatetime → s.rotate tw = s) ∧
    (s.rotatetime ≤ ((tw - s.tstamp : ℤ) : ℚ) →
      (s.rotate tw).i = (s.i + 1) % 2 ∧
      (s.rotate tw).slot ((s.i + 1) % 2) = [] ∧
      (s.rotate tw).slot s.i = s.slot s.i ∧
      (s.rotate tw).tstamp = tw ∧
      (s.rotate tw).rotatetime = s.rotatetime) := by
  refine ⟨?_, ?_, ?_, ?_⟩
  · intro hw
    simp [RNState.init, hw]
  · intro hw
    simp [RNState.init, hw]
  · intro hlt
    unfold RNState.rotate
    rw [if_neg (by exact not_le.mpr hlt)]
  · intro hge
    unfold RNState.rotate
    rw [if_pos (by exact hge)]
    by_cases hp : s.i % 2 = 0
    · have hj : (s.i + 1) % 2 = 1 := by omega
      simp [hj, RNState.setSlot, RNState.slot, hp]
    · have hp1 : s.i % 2 = 1 := by omega
      have hj : (s.i + 1) % 2 = 0 := by omega
      simp [hj, RNState.setSlot, RNState.slot, hp1]

theorem C8_amended_witness :
    (RNState.init 0 (1 / 2)).rotatetime = 600 * (1 / 2) ∧
    (RNState.init 0 0).rotatetime = 10 ∧
    (⟨600, 0, [(7, [0])], [], 0⟩ : RNState).rotate 10 =
      (⟨600, 0, [(7, [0])], [], 0⟩ : RNState) ∧
    (((⟨600, 0, [(7, [0])], [], 0⟩ : RNState).rotate 600).i = (0 + 1) % 2 ∧
     ((⟨600, 0, [(7, [0])], [], 0⟩ : RNState).rotate 600).slot ((0 + 1) % 2) = [] ∧
     ((⟨600, 0, [(7, [0])], [], 0⟩ : RNState).rotate 600).slot 0 =
       (⟨600, 0, [(7, [0])], [], 0⟩ : RNState).slot 0 ∧
     ((⟨600, 0, [(7, [0])], [], 0⟩ : RNState).rotate 600).tstamp = 600 ∧
     ((⟨600, 0, [(7, [0])], [], 0⟩ : RNState).rotate 600).rotatetime =
       (⟨600, 0, [(7, [0])], [], 0⟩ : RNState).rotatetime) :=
  ⟨(C8_amended (1 / 2) 0 0 ⟨600, 0, [], [], 0⟩).1 (by norm_num),
   (C8_amended 0 0 0 ⟨600, 0, [], [], 0⟩).2.1 rfl,
   (C8_amended (1 / 2) 0 10 ⟨600, 0, [(7, [0])], [], 0⟩).2.2.1 (by norm_num),
   (C8_amended (1 / 2) 0 600 ⟨600, 0, [(7, [0])], [], 0⟩).2.2.2 (by norm_num)⟩

/-! ## C9: the pull-timeout doubling is dead code -/

/-- **C9 (code evaluation).**  The pull timeout is `None` whenever no
socket is open, and 1 second otherwise — on *every* pull: the top of
the agent loop recomputes it from scratch, so four successive empty
polls with an open socket all use 1 second, not the claimed
1s, 2s, 4s, 8s, then indefinite.  The doubling of the `Queue.Empty`
branch computes `some 2` from `some 1` but is never read (third
conjunct shows the doubling function; the trace shows it has no
effect).  A readable poll runs the error handler, which closes the
socket, after which the timeout becomes `None`. -/
theorem C9_eval :
    agentPullTimeouts true [false, false, false, false] =
      [some 1, some 1, some 1, some 1] ∧
    pullTimeout false = none ∧
    emptyPollDouble (some 1) = some 2 ∧
    agentPullTimeouts true [true, false] = [some 1, none] := by
  decide

/-! ## C10: unknown ids and formatted tokens in error feedback -/

/-- **C10.**  A valid 6-byte status-8 error frame whose id resolves to
nothing in the recent-notification window still enqueues a feedback
record with the literal token text `"unknown"`; conversely every record
the error handler enqueues carries `(0, tok)` where `tok` is either
`"unknown"` or the `devtokfmt`-formatted text of the recorded binary
token — and that formatted text is never the 32 raw bytes: for a
32-byte token it has 64 (hex) or 44 (base64) characters. -/
theorem C10_unknown_and_formatted :
    (∀ (fmt : TokFormat) (gi : Nat) (tw : ℤ) (s : RNState) (cmd i3 i2 i1 i0 : Nat),
        (s.lookup gi tw (readBE4 i3 i2 i1 i0)).1 = none →
        (reallyprocesserror fmt gi tw s (.bytes [cmd, 8, i3, i2, i1, i0])).1 =
          .handled (some (0, "unknown".data))) ∧
    (∀ (fmt : TokFormat) (gi : Nat) (tw : ℤ) (s : RNState)
        (cmd st i3 i2 i1 i0 n : Nat) (tokText : List Char),
        (reallyprocesserror fmt gi tw s (.bytes [cmd, st, i3, i2, i1, i0])).1 =
          .handled (some (n, tokText)) →
        st = 8 ∧ n = 0 ∧
        (tokText = "unknown".data ∨
         ∃ raw, (s.lookup gi tw (readBE4 i3 i2 i1 i0)).1 = some raw ∧
           tokText = devtokfmt fmt raw)) ∧
    (∀ (fmt : TokFormat) (raw : List Nat), raw.length = 32 →
        (devtokfmt fmt raw).length ≠ 32) := by
  refine ⟨?_, ?_, ?_⟩
  · intro fmt gi tw s cmd i3 i2 i1 i0 hnone
    rcases hlook : s.lookup gi tw (readBE4 i3 i2 i1 i0) with ⟨found, s2⟩
    rw [hlook] at hnone
    simp only at hnone
    subst hnone
    simp [reallyprocesserror, hlook, errorResponses, INVALIDTOKENSTATUS]
  · intro fmt gi tw s cmd st i3 i2 i1 i0 n tokText h
    rcases hlook : s.lookup gi tw (readBE4 i3 i2 i1 i0) with ⟨found, s2⟩
    simp only [reallyprocesserror, hlook] at h
    rcases herr : errorResponses st with _ | reason
    · rw [herr] at h
      simp at h
    · rw [herr] at h
      by_cases h8 : st = INVALIDTOKENSTATUS
      · rw [if_pos h8] at h
        simp only [ErrOutcome.handled.injEq, Option.some.injEq, Prod.mk.injEq] at h
        refine ⟨h8, h.1.symm, ?_⟩
        cases found with
        | none =>
            left
            simp at h
            exact h.2.symm
        | some raw =>
            right
            exact ⟨raw, by simp [hlook], by simpa using h.2.symm⟩
      · rw [if_neg h8] at h
        simp at h
  · intro fmt raw hraw
    cases fmt with
    | hex =>
        simp [devtokfmt, hexEncode_length, hraw]
    | base64 =>
        simp [devtokfmt, b64encode_length, hraw]

theorem C10_unknown_and_formatted_witness :
    (reallyprocesserror .base64 0 0 (⟨600, 0, [], [], 0⟩ : RNState)
        (.bytes [8, 8, 0, 0, 0, 7])).1 =
      .handled (some (0, "unknown".data)) ∧
    (devtokfmt .hex (List.replicate 32 0)).length ≠ 32 ∧
    (devtokfmt .base64 (List.replicate 32 0)).length ≠ 32 := by
  refine ⟨C10_unknown_and_formatted.1 .base64 0 0 ⟨600, 0, [], [], 0⟩ 8 0 0 0 7 ?_,
          C10_unknown_and_formatted.2.2 .hex (List.replicate 32 0) (by simp),
          C10_unknown_and_formatted.2.2 .base64 (List.replicate 32 0) (by simp)⟩
  unfold RNState.lookup RNState.rotate
  norm_num [RNState.slot]

end Apnsd
